import Mathlib

/-!
# Verification of the e-learning Enrollment & Progress Lifecycle Engine

Shallow embedding of `final_project/elearning_app` (models.py, signals.py,
tasks.py, api.py).  The relational store is a record of lists of rows;
Django primary keys are `Nat`; Python `float` weights and grades are
modelled as exact rationals `ℚ` (the claims under study involve only
small decimal values where binary-float rounding plays no role);
timestamps are `Nat` values supplied by an explicit `now` parameter
standing for `datetime.now()` / `timezone.now()`; nullable columns are
`Option`; Python code that would raise (e.g. an attribute access on
`None`) is embedded in `Except String`.
-/

/-- `User.UserRole` (models.py): Student / Teacher / Admin. -/
inductive Role where
  | student
  | teacher
  | admin
deriving DecidableEq, Repr

/-- `Enrollment.EnrollmentStatus` (models.py): Active / Completed / Canceled / Removed. -/
inductive EnrollmentStatus where
  | active
  | completed
  | canceled
  | removed
deriving DecidableEq, Repr

/-- A `User` row; `role` is the name of the user's first group
(`None` when the user belongs to no group). -/
structure UserRec where
  id : Nat
  role : Option Role
deriving DecidableEq, Repr

/-- A `Course` row (the fields the lifecycle engine reads). -/
structure Course where
  id : Nat
  taughtBy : Nat
  isPublished : Bool
deriving DecidableEq, Repr

/-- A `Module` row: child of a course. -/
structure ModuleRec where
  id : Nat
  courseId : Nat
deriving DecidableEq, Repr

/-- A `Lesson` row: child of a module. -/
structure Lesson where
  id : Nat
  moduleId : Nat
deriving DecidableEq, Repr

/-- A `LessonProgress` row: `completed` boolean per (student, lesson). -/
structure LessonProgress where
  id : Nat
  studentId : Nat
  lessonId : Nat
  completed : Bool
deriving DecidableEq, Repr

/-- An `Assignment` row; `weight ∈ [0,100]`; `deadlineDate` is the
date part of the nullable `deadline` column, as a day number. -/
structure Assignment where
  id : Nat
  moduleId : Nat
  weight : ℚ
  deadlineDate : Option Nat
deriving DecidableEq, Repr

/-- An `AssignmentSubmission` row; `grade` is nullable. -/
structure Submission where
  id : Nat
  assignmentId : Nat
  studentId : Nat
  grade : Option ℚ
deriving DecidableEq, Repr

/-- An `Enrollment` row with its status and "reached" timestamps. -/
structure Enrollment where
  id : Nat
  studentId : Nat
  courseId : Nat
  status : EnrollmentStatus
  activatedOn : Nat
  completedOn : Option Nat
  canceledOn : Option Nat
  removedOn : Option Nat
  finalGrade : Option ℚ
deriving DecidableEq, Repr

/-- The kind of a `Notification` row's `content` string:
  * `submissionCreated a` — "`{student}` has submitted assignment `{title}`"
  * `submissionGraded a` — "Assignment submission for `{title}` has been graded"
  * `finalGradeUpdated` — "Final grade for course `{title}` has been updated"
  * `enrollmentCreated` — "`{student}` has enrolled in course `{title}`"
  * `deadlineApproaching a` — "Assignment `{title}` is due in one week ..."
The assignment id `a` recovers the assignment named in the content. -/
inductive NotifKind where
  | submissionCreated (assignmentId : Nat)
  | submissionGraded (assignmentId : Nat)
  | finalGradeUpdated
  | enrollmentCreated
  | deadlineApproaching (assignmentId : Nat)
deriving DecidableEq, Repr

/-- A `Notification` row: recipient, related course, content kind. -/
structure Notification where
  userId : Nat
  courseId : Nat
  kind : NotifKind
deriving DecidableEq, Repr

/-- The relational store: one list of rows per table, in primary-key
(insertion) order, which is the order Django's unordered
querysets/`.first()` fall back to. -/
structure Store where
  users : List UserRec
  courses : List Course
  modules : List ModuleRec
  lessons : List Lesson
  lessonProgress : List LessonProgress
  assignments : List Assignment
  submissions : List Submission
  enrollments : List Enrollment
  notifications : List Notification
deriving DecidableEq, Repr

/-- Python `round(x, 2)` / `"{v:.2f}"` formatting: round to two decimal
places, here as `⌊q·100 + 1/2⌋ / 100` (round half up; CPython rounds
half to even, which differs only at exact half-thousandth ties, and no
claim under study exercises such a tie). -/
def round2 (q : ℚ) : ℚ := (Rat.floor (q * 100 + 1 / 2) : ℚ) / 100

/-- `Lesson.objects.filter(module__course=c)`: lessons whose module
belongs to course `cid`. -/
def lessonsInCourse (st : Store) (cid : Nat) : List Lesson :=
  st.lessons.filter fun l =>
    st.modules.any fun m => m.id == l.moduleId && m.courseId == cid

/-- `Assignment.objects.filter(module__course=c)`
(= `Course.get_all_assignments`). -/
def assignmentsInCourse (st : Store) (cid : Nat) : List Assignment :=
  st.assignments.filter fun a =>
    st.modules.any fun m => m.id == a.moduleId && m.courseId == cid

/-- `User.get_lessons_completed` (models.py line 91): the join
`Lesson.objects.filter(module__course=course, user_progress__student=self,
user_progress__completed=True)` produces one row per completed
`LessonProgress` record of the student on a lesson of the course. -/
def get_lessons_completed (st : Store) (uid cid : Nat) : List LessonProgress :=
  st.lessonProgress.filter fun p =>
    p.studentId == uid && p.completed &&
      st.lessons.any fun l => l.id == p.lessonId &&
        st.modules.any fun m => m.id == l.moduleId && m.courseId == cid

/-- `User.get_assignments_submitted` (models.py line 95):
`AssignmentSubmission.objects.filter(assignment__module__course=course,
student=self)`. -/
def get_assignments_submitted (st : Store) (uid cid : Nat) : List Submission :=
  st.submissions.filter fun s =>
    s.studentId == uid &&
      st.assignments.any fun a => a.id == s.assignmentId &&
        st.modules.any fun m => m.id == a.moduleId && m.courseId == cid

/-- `Course.get_user_progress` (models.py lines 176-196):
`round(100 * (lessons completed + assignments submitted) /
(lessons + assignments), 2)`, and `0.0` when the course has no items. -/
def get_user_progress (st : Store) (cid uid : Nat) : ℚ :=
  let allLessonsCount := (lessonsInCourse st cid).length
  let completedLessonsCount := (get_lessons_completed st uid cid).length
  let allAssignmentsCount := (assignmentsInCourse st cid).length
  let submittedAssignmentsCount := (get_assignments_submitted st uid cid).length
  let totalItems := allLessonsCount + allAssignmentsCount
  let completedItems := completedLessonsCount + submittedAssignmentsCount
  if totalItems = 0 then 0
  else round2 ((completedItems : ℚ) / (totalItems : ℚ) * 100)

/-- The weight of a submission's assignment (`a.assignment.weight`);
the foreign key always resolves in a well-formed store. -/
def assignmentWeight (st : Store) (s : Submission) : ℚ :=
  ((st.assignments.find? fun a => a.id == s.assignmentId).map Assignment.weight).getD 0

/-- `User.get_final_grade` (models.py lines 99-107): `None` when the
student's submission count differs from the course's assignment count or
some submission grade is null; otherwise
`Σ (assignment.weight/100) * submission.grade`. -/
def get_final_grade (st : Store) (uid cid : Nat) : Option ℚ :=
  let submissions := get_assignments_submitted st uid cid
  let assignments := assignmentsInCourse st cid
  if assignments.length ≠ submissions.length ∨ submissions.any fun s => s.grade.isNone then
    none
  else
    some (submissions.foldl (fun acc s => acc + assignmentWeight st s / 100 * s.grade.getD 0) 0)

/-- `Assignment.clean` (models.py lines 257-266), for an assignment
whose module belongs to course `cid`: sums the weights of all other
assignments of the course (excluding `pk=self.pk`) and raises
`ValidationError` when that sum plus the proposed weight exceeds 100.0;
the error message reports `(100 - current_lesson_weight):.2f` as the
maximum weight still available.  The check is pure: it reads the store
and either raises or returns, mutating nothing. -/
def assignment_clean (st : Store) (cid : Nat) (a : Assignment) : Except ℚ Unit :=
  let existingAssignments := (assignmentsInCourse st cid).filter fun b => b.id ≠ a.id
  let currentLessonWeight := (existingAssignments.map Assignment.weight).sum
  if currentLessonWeight + a.weight > 100 then
    Except.error (round2 (100 - currentLessonWeight))
  else
    Except.ok ()

/-- `Notification.objects.create(...)`: append a notification row. -/
def addNotification (st : Store) (uid cid : Nat) (k : NotifKind) : Store :=
  { st with notifications := st.notifications ++ [⟨uid, cid, k⟩] }

/-- `enrollment.save(...)`: persist the in-memory enrollment object over
the stored row with the same primary key. -/
def saveEnrollment (st : Store) (e : Enrollment) : Store :=
  { st with enrollments := st.enrollments.map fun old => if old.id == e.id then e else old }

/-- Python truthiness of a nullable grade: both `None` and `0.0` are
falsy, so `if final_grade:` and `elif instance.grade:` skip their body
for a zero grade as well as for an absent one. -/
def truthyGrade : Option ℚ → Bool
  | none => false
  | some g => g ≠ 0

/-- `lesson.module.course` foreign-key traversal
(`LessonProgress.course` property). -/
def lessonCourseId (st : Store) (lessonId : Nat) : Option Nat := do
  let l ← st.lessons.find? fun l => l.id == lessonId
  let m ← st.modules.find? fun m => m.id == l.moduleId
  pure m.courseId

/-- `submission.assignment.module.course` foreign-key traversal. -/
def submissionCourseId (st : Store) (s : Submission) : Option Nat := do
  let a ← st.assignments.find? fun a => a.id == s.assignmentId
  let m ← st.modules.find? fun m => m.id == a.moduleId
  pure m.courseId

/-- `course.taught_by`. -/
def courseTeacher (st : Store) (cid : Nat) : Option Nat :=
  (st.courses.find? fun c => c.id == cid).map Course.taughtBy

/-- `student.enrollments.filter(course=course).first()`
(`User.get_enrollment` has the same body): first row in pk order. -/
def firstEnrollment (st : Store) (uid cid : Nat) : Option Enrollment :=
  (st.enrollments.filter fun e => e.studentId == uid && e.courseId == cid).head?

/-- `mark_enrollment_completed_on_lessons_completed` (signals.py lines
34-55), the `post_save` receiver for `LessonProgress`.  When the saved
row is completed and the student's progress is `100.0`, it sets the
first matching enrollment's status and `completed_on` unconditionally
(`datetime.now()` on every run), additionally sets `final_grade` and
emits the grade-updated notification when `get_final_grade` is truthy,
and saves.  `enrollment.status` on a missing enrollment
(`.first()` returning `None`) raises `AttributeError`.  The nested
`enrollment.save` fires `enrollment_notification` with `created=False`,
which is a no-op because the instance's `completed_on` is already set. -/
def mark_enrollment_completed_on_lessons_completed (now : Nat) (st : Store)
    (lp : LessonProgress) : Except String Store :=
  if lp.completed then
    match lessonCourseId st lp.lessonId with
    | none => Except.error "dangling lesson foreign key"
    | some cid =>
      if get_user_progress st cid lp.studentId = 100 then
        match firstEnrollment st lp.studentId cid with
        | none => Except.error "AttributeError: NoneType has no attribute status"
        | some e =>
          let finalGrade := get_final_grade st lp.studentId cid
          let truthy := truthyGrade finalGrade
          let e1 : Enrollment :=
            { e with status := EnrollmentStatus.completed, completedOn := some now,
                     finalGrade := if truthy then finalGrade else e.finalGrade }
          let st1 := if truthy then addNotification st lp.studentId cid .finalGradeUpdated else st
          Except.ok (saveEnrollment st1 e1)
      else Except.ok st
  else Except.ok st

/-- `enrollment_notification` (signals.py lines 57-67), `created=True`
branch: notify the course's teacher that the student enrolled. -/
def enrollment_notification_created (st : Store) (e : Enrollment) : Except String Store :=
  match courseTeacher st e.courseId with
  | none => Except.error "dangling course foreign key"
  | some teacherId => Except.ok (addNotification st teacherId e.courseId .enrollmentCreated)

/-- `enrollment_notification` (signals.py lines 68-77), `created=False`
branch: backfill the "reached" timestamp matching the new status when it
is still null, saving only that field.  Returns the store and the
updated in-memory instance.  (The inner `save` re-fires the receiver;
that recursive call is a no-op because the timestamp is then set.) -/
def enrollment_notification_update (now : Nat) (st : Store) (e : Enrollment) :
    Store × Enrollment :=
  if e.status = EnrollmentStatus.completed ∧ e.completedOn = none then
    let e1 := { e with completedOn := some now }
    (saveEnrollment st e1, e1)
  else if e.status = EnrollmentStatus.canceled ∧ e.canceledOn = none then
    let e1 := { e with canceledOn := some now }
    (saveEnrollment st e1, e1)
  else if e.status = EnrollmentStatus.removed ∧ e.removedOn = none then
    let e1 := { e with removedOn := some now }
    (saveEnrollment st e1, e1)
  else (st, e)

/-- `assignment_submission_notifications` (signals.py lines 79-111), the
`post_save` receiver for `AssignmentSubmission`.  On creation it
notifies the teacher.  Otherwise, `elif instance.grade:` runs only for a
truthy (non-null, non-zero) grade: it notifies the student, and when the
student's progress is `100.0` it mutates the first matching enrollment
in memory (status, `completed_on`) — but the `enrollment.save(...)` call
sits inside the `if final_grade:` block, so when `get_final_grade` is
falsy (`None` or `0.0`) the mutated enrollment is never persisted. -/
def assignment_submission_notifications (now : Nat) (st : Store)
    (sub : Submission) (created : Bool) : Except String Store :=
  match submissionCourseId st sub with
  | none => Except.error "dangling assignment foreign key"
  | some cid =>
    match courseTeacher st cid with
    | none => Except.error "dangling course foreign key"
    | some teacherId =>
      if created then
        Except.ok (addNotification st teacherId cid (.submissionCreated sub.assignmentId))
      else if truthyGrade sub.grade then
        let st1 := addNotification st sub.studentId cid (.submissionGraded sub.assignmentId)
        if get_user_progress st1 cid sub.studentId = 100 then
          match firstEnrollment st1 sub.studentId cid with
          | none => Except.error "AttributeError: NoneType has no attribute status"
          | some e =>
            let finalGrade := get_final_grade st1 sub.studentId cid
            if truthyGrade finalGrade then
              let e1 : Enrollment :=
                { e with status := EnrollmentStatus.completed,
                         completedOn := some now, finalGrade := finalGrade }
              let st2 := addNotification st1 sub.studentId cid .finalGradeUpdated
              Except.ok (saveEnrollment st2 e1)
            else
              Except.ok st1
        else Except.ok st1
      else Except.ok st

/-- `User.get_courses` (models.py lines 70-82) for a user whose role is
Teacher: the courses the user teaches.  (The Student branch filters on a
nonexistent `enrollments__is_active` field and raises `FieldError` when
evaluated; a role-less user yields `None`.) -/
def get_courses_teacher (st : Store) (uid : Nat) : List Course :=
  st.courses.filter fun c => c.taughtBy == uid

/-- `remove_enrollments_on_block` (signals.py lines 113-120), the
`post_save` receiver for `UserBlock` creation.  For each course taught
by the blocker, the queryset call
`update(status=REMOVED, completed_on=datetime.now())` bulk-writes
`status` and `completed_on` — not `removed_on` — on the blocked
student's enrollments; queryset `update` bypasses `post_save`, so
`enrollment_notification` never runs to backfill `removed_on`.
`teacher.get_courses()` dispatches on the blocker's role: iterating the
Student branch raises `FieldError` (nonexistent field) and iterating the
`None` returned for other roles raises `TypeError`. -/
def remove_enrollments_on_block (now : Nat) (st : Store)
    (blockedById blockedUserId : Nat) : Except String Store :=
  match (st.users.find? fun u => u.id == blockedById).bind UserRec.role with
  | some Role.teacher =>
    Except.ok { st with enrollments := st.enrollments.map fun e =>
      if e.studentId == blockedUserId &&
          (get_courses_teacher st blockedById).any fun c => c.id == e.courseId then
        { e with status := EnrollmentStatus.removed, completedOn := some now }
      else e }
  | some Role.student => Except.error "FieldError: unsupported lookup is_active"
  | _ => Except.error "TypeError: NoneType object is not iterable"

/-- Django `Model.__eq__` compared with a non-`Model` value returns
`NotImplemented`, which Python resolves to `False` (hashes may collide,
but the equality check then fails).  tasks.py line 68 evaluates
`enrollment.student not in users_who_submitted_ids`, comparing a `User`
object against a set of integer `student_id` values, so the membership
test is `False` — and the guard `True` — for every enrollment. -/
def userObjEqId (_student : Nat) (_pk : Nat) : Bool := false

/-- One iteration of the loop body of
`notify_upcoming_assignment_deadlines` (tasks.py lines 54-73) for
assignment `a`: notify every student whose enrollment in the
assignment's course is Active and for whom the (always-false) membership
test above fails to place them among the submitters. -/
def notifyDeadlineForAssignment (st : Store) (a : Assignment) : Store :=
  match (st.modules.find? fun m => m.id == a.moduleId).map ModuleRec.courseId with
  | none => st  -- dangling module foreign key; absent under referential integrity
  | some cid =>
    let enrolledUsers := st.enrollments.filter fun e =>
      e.courseId == cid && e.status == EnrollmentStatus.active
    let usersWhoSubmittedIds :=
      (st.submissions.filter fun s => s.assignmentId == a.id).map Submission.studentId
    enrolledUsers.foldl (fun acc e =>
      if !(usersWhoSubmittedIds.any fun i => userObjEqId e.studentId i) then
        addNotification acc e.studentId cid (.deadlineApproaching a.id)
      else acc) st

/-- `notify_upcoming_assignment_deadlines` (tasks.py lines 46-73): sweep
all assignments whose deadline date is exactly `now + 7` days. -/
def notify_upcoming_assignment_deadlines (now : Nat) (st : Store) : Store :=
  let weekFromNow := now + 7
  (st.assignments.filter fun a => a.deadlineDate == some weekFromNow).foldl
    notifyDeadlineForAssignment st

/-- Outcome of `EnrollmentListCreateView.create`: HTTP 201 with the new
enrollment, HTTP 200 with an existing enrollment, or HTTP 400/404. -/
inductive CreateOutcome where
  | created (e : Enrollment)
  | ok (e : Enrollment)
  | badRequest (msg : String)
deriving DecidableEq, Repr

/-- `EnrollmentListCreateView.create` (api.py lines 211-246).  After the
user/course lookups and the student-role check: an existing Canceled
enrollment is reactivated in place — `status` set to Active and saved
with `update_fields=["status"]`, so no other column is written (the
`post_save` receiver then runs with `created=False` and does nothing for
an Active status); an enrollment that is (still) Completed is rejected;
any other existing enrollment is returned unchanged; otherwise a fresh
Active enrollment is inserted (`activated_on = now` via `auto_now_add`)
and the `created=True` receiver notifies the teacher. -/
def enrollment_create (now : Nat) (st : Store) (courseId : Nat)
    (userIdParam : Option Nat) (newPk : Nat) : CreateOutcome × Store :=
  match userIdParam with
  | none => (.badRequest "No user_id was provided", st)
  | some uid =>
    match st.users.find? fun u => u.id == uid,
          st.courses.find? fun c => c.id == courseId with
    | some user, some _course =>
      if user.role ≠ some Role.student then
        (.badRequest "User is not a student and cannot be enrolled in a course", st)
      else
        match firstEnrollment st uid courseId with
        | some existingEnrollment =>
          let (st1, e1) :=
            if existingEnrollment.status = EnrollmentStatus.canceled then
              let e1 := { existingEnrollment with status := EnrollmentStatus.active }
              enrollment_notification_update now (saveEnrollment st e1) e1
            else (st, existingEnrollment)
          if e1.status = EnrollmentStatus.completed then
            (.badRequest "The user has already completed this course", st1)
          else (.ok e1, st1)
        | none =>
          let e : Enrollment :=
            { id := newPk, studentId := uid, courseId := courseId,
              status := EnrollmentStatus.active, activatedOn := now,
              completedOn := none, canceledOn := none, removedOn := none,
              finalGrade := none }
          let st1 := { st with enrollments := st.enrollments ++ [e] }
          match enrollment_notification_created st1 e with
          | Except.ok st2 => (.created e, st2)
          | Except.error msg => (.badRequest msg, st)
    | _, _ => (.badRequest "404: user or course not found", st)

/-- `LessonProgressDetailView.put` core (api.py lines 349-363):
`LessonProgress.objects.update_or_create(student=student, lesson=lesson,
defaults=\x7b"completed": completed\x7d)` — update the student's row for
the lesson if one exists, else insert one with primary key `newPk`. -/
def lesson_progress_put (st : Store) (uid lessonId : Nat) (completed : Bool)
    (newPk : Nat) : Store :=
  if st.lessonProgress.any fun p => p.studentId == uid && p.lessonId == lessonId then
    { st with lessonProgress := st.lessonProgress.map fun p =>
        if p.studentId == uid && p.lessonId == lessonId then
          { p with completed := completed }
        else p }
  else
    { st with lessonProgress := st.lessonProgress ++ [⟨newPk, uid, lessonId, completed⟩] }

/-- `AssignmentSubmissionListCreateView.perform_create` (api.py lines
464-472): unconditionally inserts a new submission row (grade null) for
the assignment — there is no uniqueness check, so a student may
accumulate several submissions for the same assignment. -/
def submission_create (st : Store) (newPk uid assignmentId : Nat) : Store :=
  { st with submissions := st.submissions ++ [⟨newPk, assignmentId, uid, none⟩] }

/-- One store mutation of the kind claim C10 ranges over: a student
marks a lesson completed (lesson-progress PUT endpoint) or creates an
assignment submission (submission-create endpoint). -/
inductive ProgressMutation : Store → Store → Prop where
  | markLesson (st : Store) (uid lessonId newPk : Nat) :
      ProgressMutation st (lesson_progress_put st uid lessonId true newPk)
  | submit (st : Store) (newPk uid assignmentId : Nat) :
      ProgressMutation st (submission_create st newPk uid assignmentId)

/-- Reachability by a finite sequence of such mutations. -/
def ReachableBy (st st' : Store) : Prop :=
  Relation.ReflTransGen ProgressMutation st st'

/-! ## Evaluation and monotonicity helpers -/

lemma ratFloor_eq_intFloor (q : ℚ) : (Rat.floor q : ℤ) = ⌊q⌋ :=
  (Rat.floor_def' q).trans Rat.floor_def.symm

lemma round2_eq (q : ℚ) : round2 q = ((⌊q * 100 + 1 / 2⌋ : ℤ) : ℚ) / 100 := by
  rw [round2, ratFloor_eq_intFloor]

lemma round2_mono {q r : ℚ} (h : q ≤ r) : round2 q ≤ round2 r := by
  rw [round2_eq, round2_eq]
  have hf : ⌊q * 100 + 1 / 2⌋ ≤ ⌊r * 100 + 1 / 2⌋ := Int.floor_mono (by linarith)
  exact div_le_div_of_nonneg_right (by exact_mod_cast hf) (by norm_num)

lemma round2_nonneg {q : ℚ} (h : 0 ≤ q) : 0 ≤ round2 q := by
  have h0 : round2 0 = 0 := by rw [round2_eq]; norm_num
  exact h0 ▸ round2_mono h

lemma round2_hundred : round2 100 = 100 := by
  rw [round2_eq]; norm_num

lemma get_user_progress_eval (st : Store) (cid uid : Nat) :
    get_user_progress st cid uid =
      if (lessonsInCourse st cid).length + (assignmentsInCourse st cid).length = 0 then 0
      else round2
        ((((get_lessons_completed st uid cid).length +
            (get_assignments_submitted st uid cid).length : ℕ) : ℚ) /
          (((lessonsInCourse st cid).length + (assignmentsInCourse st cid).length : ℕ) : ℚ) *
          100) := rfl

/-! ## Claim C1 -/

/-- The store for claim C1: student 5 is actively enrolled in course 1
(taught by teacher 9), which has no lessons and two assignments — one of
weight 0 (graded 80) and one of weight 100 (graded 0).  Both assignments
are submitted, so the student's progress is 100, and the final grade
computes to exactly `0.0`. -/
def c1Store : Store :=
  { users := [⟨5, some Role.student⟩, ⟨9, some Role.teacher⟩],
    courses := [⟨1, 9, true⟩],
    modules := [⟨1, 1⟩],
    lessons := [],
    lessonProgress := [],
    assignments := [⟨1, 1, 0, none⟩, ⟨2, 1, 100, none⟩],
    submissions := [⟨1, 1, 5, some 80⟩, ⟨2, 2, 5, some 0⟩],
    enrollments := [⟨1, 5, 1, EnrollmentStatus.active, 0, none, none, none, none⟩],
    notifications := [] }

/-- The store after the grading event of claim C1: only the
"submission graded" notification was added. -/
def c1StoreAfter : Store :=
  { c1Store with notifications := [⟨5, 1, NotifKind.submissionGraded 1⟩] }

/-- C1.  For every assignment-submission grading that raises the
student's progress in the course to 100% while the enrollment is Active,
the claim requires the enrollment to be persisted with status=Completed
and `completed_on` set, even when the computed final grade is exactly
0.0 or not yet computable.  The code violates this: at `c1Store` the
grading of submission 1 (grade 80) brings progress to 100 and the final
grade computes to exactly `0.0`, yet `assignment_submission_notifications`
leaves the enrollment row untouched — still Active with `completed_on`
null — because `enrollment.save(...)` is nested inside the
`if final_grade:` branch and `0.0` is falsy (signals.py lines 97-111). -/
theorem c1_completed_transition_dropped_when_final_grade_zero :
    get_user_progress c1StoreAfter 1 5 = 100 ∧
    get_final_grade c1StoreAfter 5 1 = some 0 ∧
    assignment_submission_notifications 3 c1Store ⟨1, 1, 5, some 80⟩ false =
      Except.ok c1StoreAfter ∧
    c1StoreAfter.enrollments =
      [⟨1, 5, 1, EnrollmentStatus.active, 0, none, none, none, none⟩] := by
  have hp : get_user_progress c1StoreAfter 1 5 = 100 := by
    rw [get_user_progress_eval]
    have h1 : (lessonsInCourse c1StoreAfter 1).length = 0 := rfl
    have h2 : (assignmentsInCourse c1StoreAfter 1).length = 2 := rfl
    have h3 : (get_lessons_completed c1StoreAfter 5 1).length = 0 := rfl
    have h4 : (get_assignments_submitted c1StoreAfter 5 1).length = 2 := rfl
    rw [h1, h2, h3, h4, round2_eq]
    norm_num
  have hfg : get_final_grade c1StoreAfter 5 1 = some 0 := by
    rw [get_final_grade, if_neg (by decide)]
    have hw1 : assignmentWeight c1StoreAfter ⟨1, 1, 5, some 80⟩ = 0 := rfl
    have hw2 : assignmentWeight c1StoreAfter ⟨2, 2, 5, some 0⟩ = 100 := rfl
    have hs : get_assignments_submitted c1StoreAfter 5 1 =
        [⟨1, 1, 5, some 80⟩, ⟨2, 2, 5, some 0⟩] := rfl
    rw [hs]
    simp only [List.foldl, hw1, hw2]
    norm_num
  refine ⟨hp, hfg, ?_, rfl⟩
  have hcid : submissionCourseId c1Store ⟨1, 1, 5, some 80⟩ = some 1 := rfl
  have hteach : courseTeacher c1Store 1 = some 9 := rfl
  have htr : truthyGrade (some 80) = true := by norm_num [truthyGrade]
  have hfe : firstEnrollment c1StoreAfter 5 1 =
      some ⟨1, 5, 1, EnrollmentStatus.active, 0, none, none, none, none⟩ := rfl
  have hnt : truthyGrade (some 0) = false := by norm_num [truthyGrade]
  have hadd : addNotification c1Store 5 1 (NotifKind.submissionGraded 1) = c1StoreAfter := rfl
  simp only [assignment_submission_notifications, hcid, hteach, htr, hadd, hp, hfe, hfg, hnt,
    Bool.false_eq_true, if_false, if_true]

/-! ## Claim C2 -/

/-- The store for claim C2: teacher 9 teaches course 1; student 5 holds
an Active enrollment in it with every nullable timestamp still null. -/
def c2Store : Store :=
  { users := [⟨5, some Role.student⟩, ⟨9, some Role.teacher⟩],
    courses := [⟨1, 9, true⟩],
    modules := [], lessons := [], lessonProgress := [],
    assignments := [], submissions := [],
    enrollments := [⟨1, 5, 1, EnrollmentStatus.active, 0, none, none, none, none⟩],
    notifications := [] }

/-- C2.  The claim requires a block event to transition every affected
enrollment to Removed **and set its `removed_on` timestamp**.  The code
violates the second half: when teacher 9 blocks student 5 at time 7, the
enrollment's status does become Removed, but the bulk
`update(status=REMOVED, completed_on=datetime.now())` writes
`completed_on` — not `removed_on` — and, being a queryset update, it
bypasses the `post_save` receiver that would have backfilled
`removed_on`.  The resulting row has `removed_on` still null and a
spurious `completed_on` (signals.py line 120). -/
theorem c2_block_sets_completed_on_and_leaves_removed_on_null :
    remove_enrollments_on_block 7 c2Store 9 5 =
      Except.ok { c2Store with enrollments :=
        [{ id := 1, studentId := 5, courseId := 1,
           status := EnrollmentStatus.removed, activatedOn := 0,
           completedOn := some 7, canceledOn := none, removedOn := none,
           finalGrade := none }] } := rfl

/-! ## Claim C3 -/

/-- The store for claim C3: course 1 (teacher 9) has one assignment
whose deadline date is day 17; students 5 and 6 hold Active enrollments;
student 5 has already submitted the assignment, student 6 has not. -/
def c3Store : Store :=
  { users := [⟨5, some Role.student⟩, ⟨6, some Role.student⟩, ⟨9, some Role.teacher⟩],
    courses := [⟨1, 9, true⟩],
    modules := [⟨1, 1⟩], lessons := [], lessonProgress := [],
    assignments := [⟨1, 1, 100, some 17⟩],
    submissions := [⟨1, 1, 5, some 90⟩],
    enrollments := [⟨1, 5, 1, EnrollmentStatus.active, 0, none, none, none, none⟩,
                    ⟨2, 6, 1, EnrollmentStatus.active, 0, none, none, none, none⟩],
    notifications := [] }

/-- C3.  The claim requires the deadline sweep to notify exactly the
Active-enrolled students who have NOT submitted — in particular, a
student who has submitted must receive nothing.  The code violates this:
running the sweep at day 10 (the assignment's deadline date is
10 + 7 = 17) notifies **both** Active-enrolled students, including
student 5 who has submitted, because tasks.py line 68 compares the
`User` object `enrollment.student` against a set of integer
`student_id` values, a membership test that is always false. -/
theorem c3_sweep_notifies_students_who_already_submitted :
    c3Store.submissions.map Submission.studentId = [5] ∧
    (notify_upcoming_assignment_deadlines 10 c3Store).notifications =
      [⟨5, 1, NotifKind.deadlineApproaching 1⟩,
       ⟨6, 1, NotifKind.deadlineApproaching 1⟩] :=
  ⟨rfl, rfl⟩

/-! ## Claim C4 -/

/-- The store for claim C4: course 1 has one lesson (completed by
student 5) and one assignment of weight 100 (submitted and graded 80),
so the student's progress is 100 and the final grade computes to 80;
the enrollment is still Active. -/
def c4Store : Store :=
  { users := [⟨5, some Role.student⟩, ⟨9, some Role.teacher⟩],
    courses := [⟨1, 9, true⟩],
    modules := [⟨1, 1⟩],
    lessons := [⟨1, 1⟩],
    lessonProgress := [⟨1, 5, 1, true⟩],
    assignments := [⟨1, 1, 100, none⟩],
    submissions := [⟨1, 1, 5, some 80⟩],
    enrollments := [⟨1, 5, 1, EnrollmentStatus.active, 0, none, none, none, none⟩],
    notifications := [] }

/-- The store after the first run of the completion trigger at time 3:
the enrollment is Completed with `completed_on = 3` and final grade 80,
and one final-grade notification exists. -/
def c4StoreAfterFirst : Store :=
  { c4Store with
    enrollments := [⟨1, 5, 1, EnrollmentStatus.completed, 0, some 3, none, none, some 80⟩],
    notifications := [⟨5, 1, NotifKind.finalGradeUpdated⟩] }

/-- The store after re-running the trigger at time 5 with no new data:
`completed_on` has moved to 5 and a second notification was appended. -/
def c4StoreAfterSecond : Store :=
  { c4Store with
    enrollments := [⟨1, 5, 1, EnrollmentStatus.completed, 0, some 5, none, none, some 80⟩],
    notifications := [⟨5, 1, NotifKind.finalGradeUpdated⟩,
                      ⟨5, 1, NotifKind.finalGradeUpdated⟩] }

/-- C4.  The claim requires completion detection to be idempotent:
re-running the progress-reaches-100% trigger with no new data after the
enrollment is already Completed must leave `completed_on` unchanged and
emit no additional notification.  The code violates this:
`mark_enrollment_completed_on_lessons_completed` sets
`completed_on = datetime.now()` unconditionally and re-emits the
final-grade notification on every run (signals.py lines 41-55), so a
second run moves `completed_on` from 3 to 5 and appends a second
`finalGradeUpdated` notification. -/
theorem c4_completion_trigger_not_idempotent :
    mark_enrollment_completed_on_lessons_completed 3 c4Store ⟨1, 5, 1, true⟩ =
      Except.ok c4StoreAfterFirst ∧
    mark_enrollment_completed_on_lessons_completed 5 c4StoreAfterFirst ⟨1, 5, 1, true⟩ =
      Except.ok c4StoreAfterSecond ∧
    c4StoreAfterFirst.enrollments.map Enrollment.completedOn = [some 3] ∧
    c4StoreAfterSecond.enrollments.map Enrollment.completedOn = [some 5] ∧
    c4StoreAfterFirst.notifications = [⟨5, 1, NotifKind.finalGradeUpdated⟩] ∧
    c4StoreAfterSecond.notifications =
      [⟨5, 1, NotifKind.finalGradeUpdated⟩, ⟨5, 1, NotifKind.finalGradeUpdated⟩] := by
  have hp : ∀ st : Store, st.lessonProgress = c4Store.lessonProgress →
      st.lessons = c4Store.lessons → st.modules = c4Store.modules →
      st.assignments = c4Store.assignments → st.submissions = c4Store.submissions →
      get_user_progress st 1 5 = 100 := by
    intro st h1 h2 h3 h4 h5
    rw [get_user_progress_eval]
    have e1 : lessonsInCourse st 1 = lessonsInCourse c4Store 1 := by
      rw [lessonsInCourse, lessonsInCourse, h2, h3]
    have e2 : assignmentsInCourse st 1 = assignmentsInCourse c4Store 1 := by
      rw [assignmentsInCourse, assignmentsInCourse, h3, h4]
    have e3 : get_lessons_completed st 5 1 = get_lessons_completed c4Store 5 1 := by
      rw [get_lessons_completed, get_lessons_completed, h1, h2, h3]
    have e4 : get_assignments_submitted st 5 1 = get_assignments_submitted c4Store 5 1 := by
      rw [get_assignments_submitted, get_assignments_submitted, h3, h4, h5]
    rw [e1, e2, e3, e4]
    have h1' : (lessonsInCourse c4Store 1).length = 1 := rfl
    have h2' : (assignmentsInCourse c4Store 1).length = 1 := rfl
    have h3' : (get_lessons_completed c4Store 5 1).length = 1 := rfl
    have h4' : (get_assignments_submitted c4Store 5 1).length = 1 := rfl
    rw [h1', h2', h3', h4', round2_eq]
    norm_num
  have hfg : ∀ st : Store, st.modules = c4Store.modules →
      st.assignments = c4Store.assignments → st.submissions = c4Store.submissions →
      get_final_grade st 5 1 = some 80 := by
    intro st h3 h4 h5
    rw [get_final_grade]
    have e2 : assignmentsInCourse st 1 = assignmentsInCourse c4Store 1 := by
      rw [assignmentsInCourse, assignmentsInCourse, h3, h4]
    have e4 : get_assignments_submitted st 5 1 = get_assignments_submitted c4Store 5 1 := by
      rw [get_assignments_submitted, get_assignments_submitted, h3, h4, h5]
    have hw : assignmentWeight st ⟨1, 1, 5, some 80⟩ =
        assignmentWeight c4Store ⟨1, 1, 5, some 80⟩ := by
      rw [assignmentWeight, assignmentWeight, h4]
    rw [e2, e4, if_neg (by decide)]
    have hs : get_assignments_submitted c4Store 5 1 = [⟨1, 1, 5, some 80⟩] := rfl
    rw [hs]
    simp only [List.foldl, hw]
    have hw' : assignmentWeight c4Store ⟨1, 1, 5, some 80⟩ = 100 := rfl
    rw [hw']
    norm_num
  have h80 : truthyGrade (some 80) = true := by norm_num [truthyGrade]
  constructor
  · have hlc : lessonCourseId c4Store 1 = some 1 := rfl
    have hp1 : get_user_progress c4Store 1 5 = 100 := hp c4Store rfl rfl rfl rfl rfl
    have hfg1 : get_final_grade c4Store 5 1 = some 80 := hfg c4Store rfl rfl rfl
    have hfe1 : firstEnrollment c4Store 5 1 =
        some ⟨1, 5, 1, EnrollmentStatus.active, 0, none, none, none, none⟩ := rfl
    have hfold : saveEnrollment (addNotification c4Store 5 1 NotifKind.finalGradeUpdated)
        ⟨1, 5, 1, EnrollmentStatus.completed, 0, some 3, none, none, some 80⟩ =
        c4StoreAfterFirst := rfl
    simp only [mark_enrollment_completed_on_lessons_completed, hlc, hp1, hfe1, hfg1, h80,
      if_true, hfold]
  refine ⟨?_, rfl, rfl, rfl, rfl⟩
  have hlc2 : lessonCourseId c4StoreAfterFirst 1 = some 1 := rfl
  have hp2 : get_user_progress c4StoreAfterFirst 1 5 = 100 :=
    hp c4StoreAfterFirst rfl rfl rfl rfl rfl
  have hfg2 : get_final_grade c4StoreAfterFirst 5 1 = some 80 := hfg c4StoreAfterFirst rfl rfl rfl
  have hfe2 : firstEnrollment c4StoreAfterFirst 5 1 =
      some ⟨1, 5, 1, EnrollmentStatus.completed, 0, some 3, none, none, some 80⟩ := rfl
  have hfold2 : saveEnrollment (addNotification c4StoreAfterFirst 5 1 NotifKind.finalGradeUpdated)
      ⟨1, 5, 1, EnrollmentStatus.completed, 0, some 5, none, none, some 80⟩ =
      c4StoreAfterSecond := rfl
  simp only [mark_enrollment_completed_on_lessons_completed, hlc2, hp2, hfe2, hfg2, h80,
    if_true, hfold2]

/-! ## Claim C5 -/

/-- The store for claim C5: course 1 has a single lesson which student 5
has marked completed, but student 5 holds **no** enrollment in the
course; the student's computed progress is therefore 100. -/
def c5Store : Store :=
  { users := [⟨5, some Role.student⟩, ⟨9, some Role.teacher⟩],
    courses := [⟨1, 9, true⟩],
    modules := [⟨1, 1⟩],
    lessons := [⟨1, 1⟩],
    lessonProgress := [⟨1, 5, 1, true⟩],
    assignments := [], submissions := [],
    enrollments := [],
    notifications := [] }

/-- C5.  The claim requires a progress recomputation for a student with
no enrollment record to be a silent no-op that "raises no error, crashes
on no branch".  The code violates this: when the un-enrolled student's
progress reaches 100 (here by completing the course's only lesson),
`mark_enrollment_completed_on_lessons_completed` runs
`student.enrollments.filter(course=course).first()`, gets `None`, and
then dereferences `enrollment.status`, raising `AttributeError`
(signals.py lines 42-43). -/
theorem c5_progress_trigger_crashes_without_enrollment :
    c5Store.enrollments = [] ∧
    get_user_progress c5Store 1 5 = 100 ∧
    mark_enrollment_completed_on_lessons_completed 3 c5Store ⟨1, 5, 1, true⟩ =
      Except.error "AttributeError: NoneType has no attribute status" := by
  have hp : get_user_progress c5Store 1 5 = 100 := by
    rw [get_user_progress_eval]
    have h1 : (lessonsInCourse c5Store 1).length = 1 := rfl
    have h2 : (assignmentsInCourse c5Store 1).length = 0 := rfl
    have h3 : (get_lessons_completed c5Store 5 1).length = 1 := rfl
    have h4 : (get_assignments_submitted c5Store 5 1).length = 0 := rfl
    rw [h1, h2, h3, h4, round2_eq]
    norm_num
  refine ⟨rfl, hp, ?_⟩
  have hlc : lessonCourseId c5Store 1 = some 1 := rfl
  have hfe : firstEnrollment c5Store 5 1 = none := rfl
  simp only [mark_enrollment_completed_on_lessons_completed, hlc, hp, hfe, if_true]

/-! ## Claim C6 -/

/-- The store for the zero-grade half of claim C6: course 1 has one
assignment whose submission by student 5 has just been graded `0.0`. -/
def c6ZeroStore : Store :=
  { users := [⟨5, some Role.student⟩, ⟨9, some Role.teacher⟩],
    courses := [⟨1, 9, true⟩],
    modules := [⟨1, 1⟩],
    lessons := [], lessonProgress := [],
    assignments := [⟨1, 1, 100, none⟩],
    submissions := [⟨1, 1, 5, some 0⟩],
    enrollments := [⟨1, 5, 1, EnrollmentStatus.active, 0, none, none, none, none⟩],
    notifications := [] }

/-- The store for the re-save half of claim C6: course 1 has two
assignments; student 5 has submitted only the first, graded 50, so
progress is 50% and the completion path is not taken. -/
def c6RepeatStore : Store :=
  { users := [⟨5, some Role.student⟩, ⟨9, some Role.teacher⟩],
    courses := [⟨1, 9, true⟩],
    modules := [⟨1, 1⟩],
    lessons := [], lessonProgress := [],
    assignments := [⟨1, 1, 50, none⟩, ⟨2, 1, 50, none⟩],
    submissions := [⟨1, 1, 5, some 50⟩],
    enrollments := [⟨1, 5, 1, EnrollmentStatus.active, 0, none, none, none, none⟩],
    notifications := [] }

/-- `c6RepeatStore` after one save of the graded submission. -/
def c6RepeatStore1 : Store :=
  { c6RepeatStore with notifications := [⟨5, 1, NotifKind.submissionGraded 1⟩] }

/-- `c6RepeatStore` after a second save of the same graded submission. -/
def c6RepeatStore2 : Store :=
  { c6RepeatStore with notifications := [⟨5, 1, NotifKind.submissionGraded 1⟩,
                                         ⟨5, 1, NotifKind.submissionGraded 1⟩] }

/-- C6.  The claim requires: a grade transition from null to a value —
including 0.0 — notifies the student exactly once per grading event, and
later saves of the same submission re-emit nothing.  The code violates
both halves of this (signals.py line 91, `elif instance.grade:`):
grading a submission `0.0` emits no notification at all (`0.0` is
falsy), and every further save of a submission whose grade is truthy
emits the "graded" notification again — here a second save of the same
graded submission yields two identical notifications. -/
theorem c6_graded_notification_skipped_for_zero_and_repeated_on_resave :
    assignment_submission_notifications 3 c6ZeroStore ⟨1, 1, 5, some 0⟩ false =
      Except.ok c6ZeroStore ∧
    assignment_submission_notifications 3 c6RepeatStore ⟨1, 1, 5, some 50⟩ false =
      Except.ok c6RepeatStore1 ∧
    assignment_submission_notifications 4 c6RepeatStore1 ⟨1, 1, 5, some 50⟩ false =
      Except.ok c6RepeatStore2 ∧
    c6RepeatStore1.notifications = [⟨5, 1, NotifKind.submissionGraded 1⟩] ∧
    c6RepeatStore2.notifications =
      [⟨5, 1, NotifKind.submissionGraded 1⟩, ⟨5, 1, NotifKind.submissionGraded 1⟩] := by
  have hz : assignment_submission_notifications 3 c6ZeroStore ⟨1, 1, 5, some 0⟩ false =
      Except.ok c6ZeroStore := rfl
  have hp : ∀ st : Store, st.lessonProgress = c6RepeatStore.lessonProgress →
      st.lessons = c6RepeatStore.lessons → st.modules = c6RepeatStore.modules →
      st.assignments = c6RepeatStore.assignments →
      st.submissions = c6RepeatStore.submissions →
      get_user_progress st 1 5 = 50 := by
    intro st h1 h2 h3 h4 h5
    rw [get_user_progress_eval]
    have e1 : lessonsInCourse st 1 = lessonsInCourse c6RepeatStore 1 := by
      rw [lessonsInCourse, lessonsInCourse, h2, h3]
    have e2 : assignmentsInCourse st 1 = assignmentsInCourse c6RepeatStore 1 := by
      rw [assignmentsInCourse, assignmentsInCourse, h3, h4]
    have e3 : get_lessons_completed st 5 1 = get_lessons_completed c6RepeatStore 5 1 := by
      rw [get_lessons_completed, get_lessons_completed, h1, h2, h3]
    have e4 : get_assignments_submitted st 5 1 =
        get_assignments_submitted c6RepeatStore 5 1 := by
      rw [get_assignments_submitted, get_assignments_submitted, h3, h4, h5]
    rw [e1, e2, e3, e4]
    have h1' : (lessonsInCourse c6RepeatStore 1).length = 0 := rfl
    have h2' : (assignmentsInCourse c6RepeatStore 1).length = 2 := rfl
    have h3' : (get_lessons_completed c6RepeatStore 5 1).length = 0 := rfl
    have h4' : (get_assignments_submitted c6RepeatStore 5 1).length = 1 := rfl
    rw [h1', h2', h3', h4', round2_eq]
    norm_num
  have h50 : truthyGrade (some 50) = true := by norm_num [truthyGrade]
  have hne : ((50 : ℚ) = 100) = False := by norm_num
  refine ⟨hz, ?_, ?_, rfl, rfl⟩
  · have hcid : submissionCourseId c6RepeatStore ⟨1, 1, 5, some 50⟩ = some 1 := rfl
    have hteach : courseTeacher c6RepeatStore 1 = some 9 := rfl
    have hadd : addNotification c6RepeatStore 5 1 (NotifKind.submissionGraded 1) =
        c6RepeatStore1 := rfl
    have hp1 : get_user_progress c6RepeatStore1 1 5 = 50 := hp c6RepeatStore1 rfl rfl rfl rfl rfl
    simp only [assignment_submission_notifications, hcid, hteach, h50, hadd, hp1,
      Bool.false_eq_true, if_false, if_true, hne]
  · have hcid : submissionCourseId c6RepeatStore1 ⟨1, 1, 5, some 50⟩ = some 1 := rfl
    have hteach : courseTeacher c6RepeatStore1 1 = some 9 := rfl
    have hadd : addNotification c6RepeatStore1 5 1 (NotifKind.submissionGraded 1) =
        c6RepeatStore2 := rfl
    have hp2 : get_user_progress c6RepeatStore2 1 5 = 50 := hp c6RepeatStore2 rfl rfl rfl rfl rfl
    simp only [assignment_submission_notifications, hcid, hteach, h50, hadd, hp2,
      Bool.false_eq_true, if_false, if_true, hne]

/-! ## Claim C7 -/

/-- C7.  The weight validator rejects an assignment create/update if and
only if the sum of the weights of all other assignments in the same
course plus the proposed weight exceeds 100.0, and the rejection
message reports the maximum weight still available, `100 - sum`, rounded
to two decimals (`Assignment.clean`, models.py lines 257-266).  The
check itself is pure: `assignment_clean` reads the store and returns a
verdict without producing a new store, so success mutates nothing. -/
theorem c7_weight_validator_rejects_iff_sum_exceeds_100
    (st : Store) (cid : Nat) (a : Assignment) :
    (assignment_clean st cid a = Except.ok () ↔
      (((assignmentsInCourse st cid).filter fun b => b.id ≠ a.id).map Assignment.weight).sum
        + a.weight ≤ 100) ∧
    ((((assignmentsInCourse st cid).filter fun b => b.id ≠ a.id).map Assignment.weight).sum
        + a.weight > 100 →
      assignment_clean st cid a =
        Except.error (round2 (100 -
          (((assignmentsInCourse st cid).filter fun b => b.id ≠ a.id).map
            Assignment.weight).sum))) := by
  simp only [assignment_clean]
  split_ifs with h
  · exact ⟨⟨fun hok => by simp at hok, fun hle => absurd h (not_lt.mpr hle)⟩, fun _ => rfl⟩
  · exact ⟨⟨fun _ => not_lt.mp h, fun _ => rfl⟩, fun hgt => absurd hgt h⟩

/-- The store for scenario B of claim C7: course 1 already has
assignment 1 with weight 60. -/
def c7Store : Store :=
  { users := [⟨9, some Role.teacher⟩],
    courses := [⟨1, 9, true⟩],
    modules := [⟨1, 1⟩],
    lessons := [], lessonProgress := [],
    assignments := [⟨1, 1, 60, none⟩],
    submissions := [], enrollments := [], notifications := [] }

/-- Witness for C7 (spec scenario B): creating assignment 2 with weight
50 next to the existing weight-60 assignment is rejected, and the error
reports a maximum available weight of 40.00. -/
theorem c7_weight_validator_witness :
    assignment_clean c7Store 1 ⟨2, 1, 50, none⟩ = Except.error 40 := by
  have hl : ((assignmentsInCourse c7Store 1).filter
      fun b => b.id ≠ (⟨2, 1, 50, none⟩ : Assignment).id).map Assignment.weight = [60] := rfl
  have hsum : (((assignmentsInCourse c7Store 1).filter
      fun b => b.id ≠ (⟨2, 1, 50, none⟩ : Assignment).id).map Assignment.weight).sum = 60 := by
    rw [hl]; norm_num
  have h := (c7_weight_validator_rejects_iff_sum_exceeds_100 c7Store 1 ⟨2, 1, 50, none⟩).2
    (by rw [hsum]; norm_num)
  rw [hsum] at h
  have hr : round2 (100 - 60) = 40 := by rw [round2_eq]; norm_num
  rw [hr] at h
  exact h

/-! ## Claim C8 -/

/-- C8.  Re-enrollment behaves by prior status
(`EnrollmentListCreateView.create`, api.py lines 211-246).  For a
student whose first matching enrollment is Canceled, the same record is
reactivated in place: the response carries `{ eC with status := Active }`
— literally the old record with only `status` changed, so `activatedOn`
is not reset and no other timestamp is cleared — and the store merely
overwrites that row (`saveEnrollment` maps over the existing rows, so
the row count is unchanged and no record is created).  For a student
whose enrollment is Completed, the request is rejected with the
already-completed error and the store is returned unchanged. -/
theorem c8_reenrollment_by_prior_status
    (now : Nat) (stC stK : Store) (uidC cidC uidK cidK pkC pkK : Nat)
    (uC uK : UserRec) (cC cK : Course) (eC eK : Enrollment)
    (huC : stC.users.find? (fun u => u.id == uidC) = some uC)
    (hrC : uC.role = some Role.student)
    (hcC : stC.courses.find? (fun c => c.id == cidC) = some cC)
    (heC : firstEnrollment stC uidC cidC = some eC)
    (hsC : eC.status = EnrollmentStatus.canceled)
    (huK : stK.users.find? (fun u => u.id == uidK) = some uK)
    (hrK : uK.role = some Role.student)
    (hcK : stK.courses.find? (fun c => c.id == cidK) = some cK)
    (heK : firstEnrollment stK uidK cidK = some eK)
    (hsK : eK.status = EnrollmentStatus.completed) :
    enrollment_create now stC cidC (some uidC) pkC =
      (CreateOutcome.ok { eC with status := EnrollmentStatus.active },
        saveEnrollment stC { eC with status := EnrollmentStatus.active }) ∧
    ({ eC with status := EnrollmentStatus.active }).activatedOn = eC.activatedOn ∧
    ({ eC with status := EnrollmentStatus.active }).completedOn = eC.completedOn ∧
    ({ eC with status := EnrollmentStatus.active }).canceledOn = eC.canceledOn ∧
    ({ eC with status := EnrollmentStatus.active }).removedOn = eC.removedOn ∧
    (saveEnrollment stC { eC with status := EnrollmentStatus.active }).enrollments.length =
      stC.enrollments.length ∧
    enrollment_create now stK cidK (some uidK) pkK =
      (CreateOutcome.badRequest "The user has already completed this course", stK) := by
  refine ⟨?_, rfl, rfl, rfl, rfl, by simp [saveEnrollment], ?_⟩
  · simp only [enrollment_create, huC, hcC, heC, hrC, hsC, enrollment_notification_update,
      ne_eq, not_true_eq_false, Bool.false_eq_true, if_false, if_true, reduceCtorEq,
      false_and, and_false, if_pos, if_neg]
  · simp only [enrollment_create, huK, hcK, heK, hrK, hsK, ne_eq, not_true_eq_false,
      Bool.false_eq_true, if_false, if_true, reduceCtorEq, false_and, and_false]

/-- Witness store for the Canceled half of C8: student 5's enrollment in
course 1 was activated at time 2 and canceled at time 4. -/
def c8CanceledStore : Store :=
  { users := [⟨5, some Role.student⟩, ⟨9, some Role.teacher⟩],
    courses := [⟨1, 9, true⟩],
    modules := [], lessons := [], lessonProgress := [],
    assignments := [], submissions := [],
    enrollments := [⟨1, 5, 1, EnrollmentStatus.canceled, 2, none, some 4, none, none⟩],
    notifications := [] }

/-- Witness store for the Completed half of C8: student 5's enrollment
in course 1 was completed at time 9 with final grade 80. -/
def c8CompletedStore : Store :=
  { users := [⟨5, some Role.student⟩, ⟨9, some Role.teacher⟩],
    courses := [⟨1, 9, true⟩],
    modules := [], lessons := [], lessonProgress := [],
    assignments := [], submissions := [],
    enrollments := [⟨1, 5, 1, EnrollmentStatus.completed, 2, some 9, none, none, some 80⟩],
    notifications := [] }

/-- Witness for C8: re-enrolling the Canceled enrollment reactivates the
same record (`activated_on` still 2, `canceled_on` still 4, one row);
re-enrolling the Completed one is rejected and the store is unchanged. -/
theorem c8_reenrollment_witness :
    enrollment_create 11 c8CanceledStore 1 (some 5) 99 =
      (CreateOutcome.ok ⟨1, 5, 1, EnrollmentStatus.active, 2, none, some 4, none, none⟩,
        { c8CanceledStore with enrollments :=
          [⟨1, 5, 1, EnrollmentStatus.active, 2, none, some 4, none, none⟩] }) ∧
    enrollment_create 11 c8CompletedStore 1 (some 5) 99 =
      (CreateOutcome.badRequest "The user has already completed this course",
        c8CompletedStore) := by
  have h := c8_reenrollment_by_prior_status 11 c8CanceledStore c8CompletedStore 5 1 5 1 99 99
    ⟨5, some Role.student⟩ ⟨5, some Role.student⟩ ⟨1, 9, true⟩ ⟨1, 9, true⟩
    ⟨1, 5, 1, EnrollmentStatus.canceled, 2, none, some 4, none, none⟩
    ⟨1, 5, 1, EnrollmentStatus.completed, 2, some 9, none, none, some 80⟩
    rfl rfl rfl rfl rfl rfl rfl rfl rfl rfl
  exact ⟨h.1, h.2.2.2.2.2.2⟩

/-! ## Claim C9 -/

/-- Counterexample store for C9: course 1 has two assignments of weight
50 each; student 5 has **two** submissions for assignment 1 (grade 80
each) and none for assignment 2.  Nothing prevents this: neither the
model nor the submission-create endpoint enforces uniqueness of
(student, assignment). -/
def c9DupStore : Store :=
  { users := [⟨5, some Role.student⟩, ⟨9, some Role.teacher⟩],
    courses := [⟨1, 9, true⟩],
    modules := [⟨1, 1⟩],
    lessons := [], lessonProgress := [],
    assignments := [⟨1, 1, 50, none⟩, ⟨2, 1, 50, none⟩],
    submissions := [⟨1, 1, 5, some 80⟩, ⟨2, 1, 5, some 80⟩],
    enrollments := [⟨1, 5, 1, EnrollmentStatus.active, 0, none, none, none, none⟩],
    notifications := [] }

/-- C9, counterexample.  The claim says the final grade is absent when
some assignment lacks a submission from the student.  At `c9DupStore`
assignment 2 has no submission from student 5, yet `get_final_grade`
returns `80`: the code only compares the submission **count** with the
assignment count (models.py line 102), and the duplicate submissions
make the counts equal. -/
theorem c9_counterexample_duplicate_submissions :
    (∃ a ∈ assignmentsInCourse c9DupStore 1,
      ∀ s ∈ get_assignments_submitted c9DupStore 5 1, s.assignmentId ≠ a.id) ∧
    get_final_grade c9DupStore 5 1 = some 80 := by
  constructor
  · exact ⟨⟨2, 1, 50, none⟩, by decide, by decide⟩
  · rw [get_final_grade, if_neg (by decide)]
    have hs : get_assignments_submitted c9DupStore 5 1 =
        [⟨1, 1, 5, some 80⟩, ⟨2, 1, 5, some 80⟩] := rfl
    have hw1 : assignmentWeight c9DupStore ⟨1, 1, 5, some 80⟩ = 50 := rfl
    have hw2 : assignmentWeight c9DupStore ⟨2, 1, 5, some 80⟩ = 50 := rfl
    rw [hs]
    simp only [List.foldl, hw1, hw2]
    norm_num

/-- `foldl` of repeated addition equals the initial value plus the sum
of the mapped list (the shape of the loop in `User.get_final_grade`). -/
lemma foldl_add_eq_add_sum (f : Submission → ℚ) (l : List Submission) (init : ℚ) :
    l.foldl (fun acc s => acc + f s) init = init + (l.map f).sum := by
  induction l generalizing init with
  | nil => simp
  | cons x xs ih => rw [List.foldl_cons, ih, List.map_cons, List.sum_cons]; ring

/-- Every submission returned by `get_assignments_submitted` references
(by id) some assignment of the course. -/
lemma submission_references_course_assignment {st : Store} {uid cid : Nat} {s : Submission}
    (hs : s ∈ get_assignments_submitted st uid cid) :
    ∃ a ∈ assignmentsInCourse st cid, s.assignmentId = a.id := by
  rw [get_assignments_submitted, List.mem_filter] at hs
  obtain ⟨-, hcond⟩ := hs
  simp only [Bool.and_eq_true, List.any_eq_true, beq_iff_eq] at hcond
  obtain ⟨-, a, ha, haid, hmod⟩ := hcond
  refine ⟨a, ?_, haid.symm⟩
  rw [assignmentsInCourse, List.mem_filter]
  refine ⟨ha, List.any_eq_true.mpr ?_⟩
  obtain ⟨m, hm, h1, h2⟩ := hmod
  exact ⟨m, hm, by rw [Bool.and_eq_true, beq_iff_eq, beq_iff_eq]; exact ⟨h1, h2⟩⟩

/-- Two lists whose key maps are without duplicates and where each key
of the first occurs among the keys of the second have equal length
exactly when, conversely, each key of the second occurs among the keys
of the first. -/
lemma length_eq_iff_keys_onto {α β : Type} (xs : List α) (ys : List β)
    (f : α → Nat) (g : β → Nat)
    (hx : (xs.map f).Nodup) (hy : (ys.map g).Nodup)
    (hsub : ∀ x ∈ xs, ∃ y ∈ ys, f x = g y) :
    xs.length = ys.length ↔ ∀ y ∈ ys, ∃ x ∈ xs, f x = g y := by
  classical
  have hxc : (xs.map f).toFinset.card = xs.length := by
    rw [List.card_toFinset, List.dedup_eq_self.mpr hx, List.length_map]
  have hyc : (ys.map g).toFinset.card = ys.length := by
    rw [List.card_toFinset, List.dedup_eq_self.mpr hy, List.length_map]
  have hss : (xs.map f).toFinset ⊆ (ys.map g).toFinset := by
    intro n hn
    rw [List.mem_toFinset, List.mem_map] at hn
    obtain ⟨x, hxm, hfx⟩ := hn
    obtain ⟨y, hym, hxy⟩ := hsub x hxm
    rw [List.mem_toFinset, List.mem_map]
    exact ⟨y, hym, by rw [← hxy, hfx]⟩
  constructor
  · intro hlen y hym
    have hcards : (ys.map g).toFinset.card ≤ (xs.map f).toFinset.card := by
      rw [hxc, hyc, hlen]
    have heq := Finset.eq_of_subset_of_card_le hss hcards
    have : g y ∈ (xs.map f).toFinset := by
      rw [heq, List.mem_toFinset, List.mem_map]
      exact ⟨y, hym, rfl⟩
    rw [List.mem_toFinset, List.mem_map] at this
    obtain ⟨x, hxm, hfx⟩ := this
    exact ⟨x, hxm, hfx⟩
  · intro honto
    have hss' : (ys.map g).toFinset ⊆ (xs.map f).toFinset := by
      intro n hn
      rw [List.mem_toFinset, List.mem_map] at hn
      obtain ⟨y, hym, hgy⟩ := hn
      obtain ⟨x, hxm, hxy⟩ := honto y hym
      rw [List.mem_toFinset, List.mem_map]
      exact ⟨x, hxm, by rw [hxy, hgy]⟩
    have := Finset.Subset.antisymm hss hss'
    rw [← hxc, ← hyc, this]

/-- C9, amended.  The original claim holds once the student's
submissions in the course are for pairwise-distinct assignments (and
assignment primary keys are unique, as the database guarantees): exactly
then the code's count comparison coincides with "every assignment has a
submission", so `get_final_grade` is absent iff some assignment lacks a
submission from the student or some submission grade is null, and
otherwise equals `Σ (assignment.weight/100) * submission.grade` over the
student's submissions. -/
theorem c9_final_grade_amended (st : Store) (uid cid : Nat)
    (hA : (st.assignments.map Assignment.id).Nodup)
    (hdist : ((get_assignments_submitted st uid cid).map Submission.assignmentId).Nodup) :
    (get_final_grade st uid cid = none ↔
      (∃ a ∈ assignmentsInCourse st cid,
        ∀ s ∈ get_assignments_submitted st uid cid, s.assignmentId ≠ a.id) ∨
      ∃ s ∈ get_assignments_submitted st uid cid, s.grade = none) ∧
    ∀ g, get_final_grade st uid cid = some g →
      g = ((get_assignments_submitted st uid cid).map
            fun s => assignmentWeight st s / 100 * s.grade.getD 0).sum := by
  have hyNodup : ((assignmentsInCourse st cid).map Assignment.id).Nodup :=
    List.Nodup.sublist ((List.filter_sublist _).map _) hA
  have hiff := length_eq_iff_keys_onto (get_assignments_submitted st uid cid)
    (assignmentsInCourse st cid) Submission.assignmentId Assignment.id hdist hyNodup
    (fun _ hs => submission_references_course_assignment hs)
  have h1 : ((assignmentsInCourse st cid).length ≠
        (get_assignments_submitted st uid cid).length) ↔
      ∃ a ∈ assignmentsInCourse st cid,
        ∀ s ∈ get_assignments_submitted st uid cid, s.assignmentId ≠ a.id := by
    rw [ne_comm, Ne, hiff]
    push_neg
    exact Iff.rfl
  have h2 : (((get_assignments_submitted st uid cid).any fun s => s.grade.isNone) = true) ↔
      ∃ s ∈ get_assignments_submitted st uid cid, s.grade = none := by
    rw [List.any_eq_true]
    simp only [Option.isNone_iff_eq_none]
  by_cases hif : (assignmentsInCourse st cid).length ≠
        (get_assignments_submitted st uid cid).length ∨
      ((get_assignments_submitted st uid cid).any fun s => s.grade.isNone) = true
  · have hval : get_final_grade st uid cid = none := by
      rw [get_final_grade]; exact if_pos hif
    refine ⟨?_, ?_⟩
    · rw [hval]
      simp only [true_iff]
      rcases hif with h | h
      · exact Or.inl (h1.mp h)
      · exact Or.inr (h2.mp h)
    · intro g hg
      rw [hval] at hg
      exact absurd hg (by simp)
  · have hval : get_final_grade st uid cid =
        some ((get_assignments_submitted st uid cid).foldl
          (fun acc s => acc + assignmentWeight st s / 100 * s.grade.getD 0) 0) := by
      rw [get_final_grade]; exact if_neg hif
    push_neg at hif
    obtain ⟨hlen, hany⟩ := hif
    refine ⟨?_, ?_⟩
    · rw [hval]
      simp only [iff_false, reduceCtorEq, false_iff]
      rintro (⟨a, ha, hnos⟩ | ⟨s, hs, hnone⟩)
      · obtain ⟨s, hs, hsid⟩ := hiff.mp hlen.symm a ha
        exact hnos s hs hsid
      · have := List.any_eq_false.mp (Bool.eq_false_iff.mpr hany) s hs
        rw [Option.isNone_iff_eq_none] at this
        exact this hnone
    · intro g hg
      rw [hval] at hg
      injection hg with hg
      rw [← hg, foldl_add_eq_add_sum (fun s => assignmentWeight st s / 100 * s.grade.getD 0),
        zero_add]

/-- Witness store for the amended C9: course 1 has assignments 1
(weight 60) and 2 (weight 40); student 5 holds exactly one graded
submission per assignment (grades 80 and 90). -/
def c9GoodStore : Store :=
  { users := [⟨5, some Role.student⟩, ⟨9, some Role.teacher⟩],
    courses := [⟨1, 9, true⟩],
    modules := [⟨1, 1⟩],
    lessons := [], lessonProgress := [],
    assignments := [⟨1, 1, 60, none⟩, ⟨2, 1, 40, none⟩],
    submissions := [⟨1, 1, 5, some 80⟩, ⟨2, 2, 5, some 90⟩],
    enrollments := [⟨1, 5, 1, EnrollmentStatus.active, 0, none, none, none, none⟩],
    notifications := [] }

/-- Witness for the amended C9 at `c9GoodStore`, where the submissions
are for pairwise-distinct assignments. -/
theorem c9_final_grade_amended_witness :
    (get_final_grade c9GoodStore 5 1 = none ↔
      (∃ a ∈ assignmentsInCourse c9GoodStore 1,
        ∀ s ∈ get_assignments_submitted c9GoodStore 5 1, s.assignmentId ≠ a.id) ∨
      ∃ s ∈ get_assignments_submitted c9GoodStore 5 1, s.grade = none) ∧
    ∀ g, get_final_grade c9GoodStore 5 1 = some g →
      g = ((get_assignments_submitted c9GoodStore 5 1).map
            fun s => assignmentWeight c9GoodStore s / 100 * s.grade.getD 0).sum :=
  c9_final_grade_amended c9GoodStore 5 1 (by decide) (by decide)

/-! ## Claim C10 -/

/-- A list whose key map is duplicate-free and whose keys all occur
among the keys of a second list is no longer than that second list. -/
lemma length_le_of_keys_into {α β : Type} (xs : List α) (ys : List β)
    (f : α → Nat) (g : β → Nat) (hx : (xs.map f).Nodup)
    (hsub : ∀ x ∈ xs, ∃ y ∈ ys, f x = g y) : xs.length ≤ ys.length := by
  classical
  have hxc : (xs.map f).toFinset.card = xs.length := by
    rw [List.card_toFinset, List.dedup_eq_self.mpr hx, List.length_map]
  have hss : (xs.map f).toFinset ⊆ (ys.map g).toFinset := by
    intro n hn
    rw [List.mem_toFinset, List.mem_map] at hn
    obtain ⟨x, hxm, hfx⟩ := hn
    obtain ⟨y, hym, hxy⟩ := hsub x hxm
    rw [List.mem_toFinset, List.mem_map]
    exact ⟨y, hym, by rw [← hxy, hfx]⟩
  calc xs.length = (xs.map f).toFinset.card := hxc.symm
    _ ≤ (ys.map g).toFinset.card := Finset.card_le_card hss
    _ ≤ (ys.map g).length := by
        rw [List.card_toFinset]; exact (List.dedup_sublist _).length_le
    _ = ys.length := List.length_map ys g

/-- Projecting the second components of a duplicate-free list of pairs
whose first components are all equal yields a duplicate-free list. -/
lemma nodup_snd_of_const_fst {l : List (Nat × Nat)} (u : Nat)
    (hfst : ∀ x ∈ l, x.1 = u) (hnd : l.Nodup) : (l.map Prod.snd).Nodup :=
  hnd.map_on fun x hx y hy hxy =>
    Prod.ext ((hfst x hx).trans (hfst y hy).symm) hxy

/-- When no student holds two `LessonProgress` rows for the same lesson,
the completed-lessons count never exceeds the course's lesson count. -/
lemma lessons_completed_le (st : Store) (uid cid : Nat)
    (hlp : (st.lessonProgress.map fun p => (p.studentId, p.lessonId)).Nodup) :
    (get_lessons_completed st uid cid).length ≤ (lessonsInCourse st cid).length := by
  apply length_le_of_keys_into _ _ LessonProgress.lessonId Lesson.id
  · have hsl : List.Sublist
        ((get_lessons_completed st uid cid).map fun p => (p.studentId, p.lessonId))
        (st.lessonProgress.map fun p => (p.studentId, p.lessonId)) :=
      (List.filter_sublist _).map _
    have hnd2 : ((get_lessons_completed st uid cid).map
        (fun p => (p.studentId, p.lessonId))).Nodup := List.Nodup.sublist hsl hlp
    have hre : (get_lessons_completed st uid cid).map LessonProgress.lessonId =
        ((get_lessons_completed st uid cid).map
          (fun p => (p.studentId, p.lessonId))).map Prod.snd := by
      rw [List.map_map]; rfl
    rw [hre]
    apply nodup_snd_of_const_fst uid _ hnd2
    intro x hx
    rw [List.mem_map] at hx
    obtain ⟨p, hp, rfl⟩ := hx
    have hc := (List.mem_filter.mp hp).2
    simp only [Bool.and_eq_true, beq_iff_eq] at hc
    exact hc.1.1
  · intro p hp
    have hc := (List.mem_filter.mp hp).2
    simp only [Bool.and_eq_true, List.any_eq_true, beq_iff_eq] at hc
    obtain ⟨-, l, hl, hlid, hmod⟩ := hc
    refine ⟨l, ?_, hlid.symm⟩
    rw [lessonsInCourse, List.mem_filter]
    refine ⟨hl, List.any_eq_true.mpr ?_⟩
    obtain ⟨m, hm, hm1, hm2⟩ := hmod
    exact ⟨m, hm, by rw [Bool.and_eq_true, beq_iff_eq, beq_iff_eq]; exact ⟨hm1, hm2⟩⟩

/-- When no student holds two submissions for the same assignment, the
submitted count never exceeds the course's assignment count. -/
lemma submissions_le (st : Store) (uid cid : Nat)
    (hsub : (st.submissions.map fun s => (s.studentId, s.assignmentId)).Nodup) :
    (get_assignments_submitted st uid cid).length ≤ (assignmentsInCourse st cid).length := by
  apply length_le_of_keys_into _ _ Submission.assignmentId Assignment.id
  · have hsl : List.Sublist
        ((get_assignments_submitted st uid cid).map fun s => (s.studentId, s.assignmentId))
        (st.submissions.map fun s => (s.studentId, s.assignmentId)) :=
      (List.filter_sublist _).map _
    have hnd2 : ((get_assignments_submitted st uid cid).map
        (fun s => (s.studentId, s.assignmentId))).Nodup := List.Nodup.sublist hsl hsub
    have hre : (get_assignments_submitted st uid cid).map Submission.assignmentId =
        ((get_assignments_submitted st uid cid).map
          (fun s => (s.studentId, s.assignmentId))).map Prod.snd := by
      rw [List.map_map]; rfl
    rw [hre]
    apply nodup_snd_of_const_fst uid _ hnd2
    intro x hx
    rw [List.mem_map] at hx
    obtain ⟨s, hs, rfl⟩ := hx
    have hc := (List.mem_filter.mp hs).2
    simp only [Bool.and_eq_true, beq_iff_eq] at hc
    exact hc.1
  · exact fun s hs => submission_references_course_assignment hs

/-- Mapping a function that preserves a filter predicate over a list
cannot shrink the filtered length. -/
lemma length_filter_le_filter_map {α : Type} (l : List α) (p : α → Bool) (g : α → α)
    (h : ∀ a, p a = true → p (g a) = true) :
    (l.filter p).length ≤ ((l.map g).filter p).length := by
  induction l with
  | nil => simp
  | cons a tl ih =>
    rw [List.map_cons, List.filter_cons, List.filter_cons]
    by_cases ha : p a = true
    · rw [if_pos ha, if_pos (h a ha)]
      exact Nat.succ_le_succ ih
    · rw [if_neg ha]
      by_cases hga : p (g a) = true
      · rw [if_pos hga]
        exact le_trans ih (Nat.le_succ _)
      · rw [if_neg hga]
        exact ih

/-- A single progress-raising mutation cannot decrease any student's
progress in any course: the item totals are untouched and the completed
counts cannot shrink. -/
lemma progress_le_of_counts (st st' : Store) (cid uid : Nat)
    (hL : lessonsInCourse st' cid = lessonsInCourse st cid)
    (hA : assignmentsInCourse st' cid = assignmentsInCourse st cid)
    (hc : (get_lessons_completed st uid cid).length +
        (get_assignments_submitted st uid cid).length ≤
      (get_lessons_completed st' uid cid).length +
        (get_assignments_submitted st' uid cid).length) :
    get_user_progress st cid uid ≤ get_user_progress st' cid uid := by
  rw [get_user_progress_eval st, get_user_progress_eval st', hL, hA]
  split_ifs with h
  · exact le_refl 0
  · apply round2_mono
    have hpos : (0 : ℚ) <
        (((lessonsInCourse st cid).length + (assignmentsInCourse st cid).length : ℕ) : ℚ) := by
      exact_mod_cast Nat.pos_of_ne_zero h
    apply mul_le_mul_of_nonneg_right _ (by norm_num : (0:ℚ) ≤ 100)
    exact (div_le_div_iff_of_pos_right hpos).mpr (by exact_mod_cast hc)

/-- Each single mutation of claim C10 (marking a lesson completed or
creating a submission) leaves every student's progress in every course
non-decreasing. -/
lemma progressMutation_mono (cid uid : Nat) {st st' : Store}
    (h : ProgressMutation st st') :
    get_user_progress st cid uid ≤ get_user_progress st' cid uid := by
  cases h with
  | markLesson u l pk =>
    by_cases hex : (st.lessonProgress.any fun p => p.studentId == u && p.lessonId == l) = true
    · have hput : lesson_progress_put st u l true pk =
          { st with lessonProgress := st.lessonProgress.map fun p =>
              if p.studentId == u && p.lessonId == l then { p with completed := true }
              else p } := by
        rw [lesson_progress_put, if_pos hex]
      rw [hput]
      refine progress_le_of_counts _ _ _ _ rfl rfl ?_
      apply Nat.add_le_add _ (le_refl _)
      apply length_filter_le_filter_map
      intro p hP
      by_cases hm : (p.studentId == u && p.lessonId == l) = true
      · rw [if_pos hm]
        rw [Bool.and_eq_true, Bool.and_eq_true] at hP
        show (p.studentId == uid && true &&
          st.lessons.any fun l2 => l2.id == p.lessonId &&
            st.modules.any fun m => m.id == l2.moduleId && m.courseId == cid) = true
        rw [Bool.and_eq_true, Bool.and_eq_true]
        exact ⟨⟨hP.1.1, rfl⟩, hP.2⟩
      · rw [if_neg hm]
        exact hP
    · have hput : lesson_progress_put st u l true pk =
          { st with lessonProgress := st.lessonProgress ++ [⟨pk, u, l, true⟩] } := by
        rw [lesson_progress_put, if_neg hex]
      rw [hput]
      refine progress_le_of_counts _ _ _ _ rfl rfl ?_
      apply Nat.add_le_add _ (le_refl _)
      show (st.lessonProgress.filter _).length ≤
        ((st.lessonProgress ++ [(⟨pk, u, l, true⟩ : LessonProgress)]).filter _).length
      rw [List.filter_append, List.length_append]
      exact Nat.le_add_right _ _
  | submit pk u aid =>
    have hput : submission_create st pk u aid =
        { st with submissions := st.submissions ++ [⟨pk, aid, u, none⟩] } := rfl
    rw [hput]
    refine progress_le_of_counts _ _ _ _ rfl rfl ?_
    apply Nat.add_le_add (le_refl _) _
    show (st.submissions.filter _).length ≤
      ((st.submissions ++ [(⟨pk, aid, u, none⟩ : Submission)]).filter _).length
    rw [List.filter_append, List.length_append]
    exact Nat.le_add_right _ _

/-- Monotonicity along any sequence of C10 mutations. -/
lemma reachable_progress_mono (cid uid : Nat) {st st' : Store}
    (h : ReachableBy st st') :
    get_user_progress st cid uid ≤ get_user_progress st' cid uid := by
  induction h with
  | refl => exact le_refl _
  | tail _ hstep ih => exact le_trans ih (progressMutation_mono cid uid hstep)

/-- Base store for claim C10: course 1 has one lesson and one
assignment; student 5 has no progress rows and no submissions yet. -/
def c10Base : Store :=
  { users := [⟨5, some Role.student⟩, ⟨9, some Role.teacher⟩],
    courses := [⟨1, 9, true⟩],
    modules := [⟨1, 1⟩],
    lessons := [⟨1, 1⟩],
    lessonProgress := [],
    assignments := [⟨1, 1, 100, none⟩],
    submissions := [],
    enrollments := [⟨1, 5, 1, EnrollmentStatus.active, 0, none, none, none, none⟩],
    notifications := [] }

/-- Store reached from `c10Base` by marking the lesson completed and
then submitting the single assignment **twice** (the submission-create
endpoint imposes no uniqueness). -/
def c10DupStore : Store :=
  submission_create (submission_create (lesson_progress_put c10Base 5 1 true 1) 1 5 1) 2 5 1

/-- C10, counterexample.  The claim asserts progress always lies in
[0, 100] on every store reachable by marking lessons completed and
creating submissions.  Submitting the same assignment twice is such a
sequence, and it drives `get_user_progress` to
`round(3/2 · 100, 2) = 150 > 100`: the completed-items count
(1 lesson + 2 submissions) exceeds the item total (1 lesson +
1 assignment). -/
theorem c10_progress_exceeds_100_on_duplicate_submissions :
    ReachableBy c10Base c10DupStore ∧
    get_user_progress c10DupStore 1 5 = 150 ∧
    ¬ get_user_progress c10DupStore 1 5 ≤ 100 := by
  have hp : get_user_progress c10DupStore 1 5 = 150 := by
    rw [get_user_progress_eval]
    have h1 : (lessonsInCourse c10DupStore 1).length = 1 := rfl
    have h2 : (assignmentsInCourse c10DupStore 1).length = 1 := rfl
    have h3 : (get_lessons_completed c10DupStore 5 1).length = 1 := rfl
    have h4 : (get_assignments_submitted c10DupStore 5 1).length = 2 := rfl
    rw [h1, h2, h3, h4, round2_eq]
    norm_num
  refine ⟨?_, hp, by rw [hp]; norm_num⟩
  exact Relation.ReflTransGen.tail
    (Relation.ReflTransGen.tail
      (Relation.ReflTransGen.tail Relation.ReflTransGen.refl
        (ProgressMutation.markLesson c10Base 5 1 1))
      (ProgressMutation.submit _ 1 5 1))
    (ProgressMutation.submit _ 2 5 1)

/-- C10, amended.  `get_user_progress` is always non-negative and is
monotonically non-decreasing under the claim's mutations (marking
lessons completed, creating submissions); the upper bound of 100 holds
exactly under the data-uniqueness the spec assumes "in practice": at
most one `LessonProgress` row per (student, lesson) — which the
lesson-progress endpoint's `update_or_create` maintains — and at most
one submission per (student, assignment) — which nothing enforces, and
whose failure is the counterexample above. -/
theorem c10_progress_bounds_and_monotone (cid uid : Nat) :
    (∀ st : Store, 0 ≤ get_user_progress st cid uid) ∧
    (∀ st : Store,
      (st.lessonProgress.map fun p => (p.studentId, p.lessonId)).Nodup →
      (st.submissions.map fun s => (s.studentId, s.assignmentId)).Nodup →
      get_user_progress st cid uid ≤ 100) ∧
    (∀ st st' : Store, ReachableBy st st' →
      get_user_progress st cid uid ≤ get_user_progress st' cid uid) := by
  refine ⟨?_, ?_, fun st st' h => reachable_progress_mono cid uid h⟩
  · intro st
    rw [get_user_progress_eval]
    split_ifs with h
    · exact le_refl 0
    · exact round2_nonneg (by positivity)
  · intro st hlp hsub
    rw [get_user_progress_eval]
    split_ifs with h
    · norm_num
    · have hcc : (get_lessons_completed st uid cid).length +
          (get_assignments_submitted st uid cid).length ≤
          (lessonsInCourse st cid).length + (assignmentsInCourse st cid).length :=
        Nat.add_le_add (lessons_completed_le st uid cid hlp) (submissions_le st uid cid hsub)
      have hpos : (0 : ℚ) <
          (((lessonsInCourse st cid).length + (assignmentsInCourse st cid).length : ℕ) : ℚ) := by
        exact_mod_cast Nat.pos_of_ne_zero h
      have hle : (((get_lessons_completed st uid cid).length +
            (get_assignments_submitted st uid cid).length : ℕ) : ℚ) /
          (((lessonsInCourse st cid).length + (assignmentsInCourse st cid).length : ℕ) : ℚ) *
          100 ≤ 100 := by
        rw [div_mul_eq_mul_div, div_le_iff₀ hpos]
        have hc : (((get_lessons_completed st uid cid).length +
            (get_assignments_submitted st uid cid).length : ℕ) : ℚ) ≤
            (((lessonsInCourse st cid).length + (assignmentsInCourse st cid).length : ℕ) : ℚ) := by
          exact_mod_cast hcc
        nlinarith
      calc round2 _ ≤ round2 100 := round2_mono hle
        _ = 100 := round2_hundred

/-- Witness for the amended C10: at the duplicate-free store reached
from `c10Base` by one lesson completion and one submission, progress is
within bounds and no smaller than at `c10Base`. -/
def c10GoodStore : Store :=
  submission_create (lesson_progress_put c10Base 5 1 true 1) 1 5 1

/-- Witness applying the amended C10 at concrete stores. -/
theorem c10_progress_bounds_and_monotone_witness :
    0 ≤ get_user_progress c10GoodStore 1 5 ∧
    get_user_progress c10GoodStore 1 5 ≤ 100 ∧
    get_user_progress c10Base 1 5 ≤ get_user_progress c10GoodStore 1 5 := by
  obtain ⟨h1, h2, h3⟩ := c10_progress_bounds_and_monotone 1 5
  refine ⟨h1 c10GoodStore, h2 c10GoodStore (by decide) (by decide), ?_⟩
  exact h3 c10Base c10GoodStore
    (Relation.ReflTransGen.tail
      (Relation.ReflTransGen.tail Relation.ReflTransGen.refl
        (ProgressMutation.markLesson c10Base 5 1 1))
      (ProgressMutation.submit _ 1 5 1))
